import Mathlib

/-!
Shallow embedding of the air_virtual_drawing repository
(`src/hand_tracker.py`, `src/mouth_tracker.py`, `src/painter.py`,
`src/main.py`) and verification of its specification claims.

Pixel coordinates are integers (the Python code converts normalized
landmarks to `int` pixels).  Images and rendering are outside the claims;
the drawing canvas is modelled as the list of drawing operations applied
to it, so "the canvas is not mutated" is "the operation list is unchanged".
-/

namespace AirDraw

/-- A 2D pixel point, as produced by `get_hand_landmarks` / `detect_mouth`
(integer pixel coordinates). -/
structure Pt where
  x : Int
  y : Int
deriving DecidableEq, Repr

/-- A BGR color triple, as used throughout `painter.py`. -/
abbrev Color := Int × Int × Int

/-! ## UIElement (`painter.py`, class `UIElement`)

Rendering-only fields (`alpha`, `text_color`, `is_visible` — the latter is
set to `True` in `__init__` and never modified anywhere) are omitted:
no claim concerns `UIElement.draw`. -/

structure UIElement where
  x : Int
  y : Int
  w : Int
  h : Int
  color : Color
  text : String
deriving DecidableEq, Repr

/-- `UIElement.is_over` (painter.py line 95):
`(self.x < x < self.x + self.w) and (self.y < y < self.y + self.h)`. -/
def UIElement.is_over (e : UIElement) (px py : Int) : Bool :=
  decide (e.x < px ∧ px < e.x + e.w) && decide (e.y < py ∧ py < e.y + e.h)

/-! ## PainterUI layout (`painter.py`, `PainterUI.__init__`)

Layout constants from the source: `base_x = 50`, `base_y = 20`,
`button_width = 120`, `button_height = 50`, `horizontal_spacing = 10`,
`vertical_spacing = 10`; hence the per-button stride `120 + 10 = 130`,
`color_y = 20 + 50 + 10 = 80`, `pen_y = 80 + 50 + 10 = 140`, the local
`shape_y = 140 + 50 + 10 = 200`, and the canvas board top
`shape_y - 70 = 130` (the local `shape_y` shadows `self.shape_y`). -/

def canvas_background_color : Color := (255, 255, 255)

def color_palette : List Color :=
  [(50, 120, 220), (80, 180, 120), (230, 130, 80), (180, 80, 180), (220, 90, 120)]

def toggle_texts : List String := ["Colors", "Shapes", "Pen", "Save", "Clear"]

def toggle_buttons : List UIElement :=
  (List.range 5).map fun i =>
    { x := 50 + 130 * Int.ofNat i, y := 20, w := 120, h := 50,
      color := (100, 100, 100), text := toggle_texts.getD i "" }

/-- The color swatches (stride `80 + 10 = 90`) followed by the Eraser
swatch at `x = 50 + 90 * 5 = 500`. -/
def colors_elems : List UIElement :=
  ((List.range 5).map fun i =>
    { x := 50 + 90 * Int.ofNat i, y := 80, w := 80, h := 50,
      color := color_palette.getD i (0, 0, 0), text := "" })
  ++ [{ x := 500, y := 80, w := 100, h := 50,
        color := (240, 240, 240), text := "Eraser" }]

def pen_size_texts : List String := ["5", "10", "15", "20"]

def pen_sizes : List UIElement :=
  (List.range 4).map fun i =>
    { x := 50 + 130 * Int.ofNat i, y := 140, w := 120, h := 50,
      color := (70, 70, 70), text := pen_size_texts.getD i "" }

def shape_texts : List String := ["Circle", "Rectangle", "Triangle"]

def shapes_elems : List UIElement :=
  (List.range 3).map fun i =>
    { x := 50 + 130 * Int.ofNat i, y := 200, w := 120, h := 50,
      color := (90, 90, 90), text := shape_texts.getD i "" }

/-- The drawing-board region `self.canvas` (painter.py lines 221-228):
`UIElement(50, shape_y - 70, width - 100, 1780, ...)` with the default
`width = 1280`, i.e. top-left `(50, 130)`, size `1180 × 1780`. -/
def canvas_elem : UIElement :=
  { x := 50, y := 130, w := 1180, h := 1780, color := (240, 240, 240), text := "" }

/-- Python `int()` applied to the pen-size button labels that occur in
this UI (painter.py line 320 only ever parses one of these four texts). -/
def pen_text_to_int (s : String) : Int :=
  if s = "5" then 5 else if s = "10" then 10
  else if s = "15" then 15 else if s = "20" then 20 else 0

/-- The mutable fields of `PainterUI` touched by `handle_interactions` /
`draw_shape` (painter.py lines 231-238). -/
structure PainterState where
  current_color : Color
  current_brush_size : Int
  hide_colors : Bool
  hide_pen_sizes : Bool
  hide_shapes : Bool
  current_shape : Option String
  shape_start_point : Option Pt
  shape_drawing_mode : Bool
deriving DecidableEq, Repr

/-- The initial `PainterUI` state: default color is the first palette
entry, brush 5, all three groups hidden, no shape selected. -/
def initPainterState : PainterState :=
  { current_color := (50, 120, 220), current_brush_size := 5,
    hide_colors := true, hide_pen_sizes := true, hide_shapes := true,
    current_shape := none, shape_start_point := none,
    shape_drawing_mode := false }

/-- The interaction-result dictionary of `handle_interactions`
(painter.py lines 275-282), all entries initially `False`. -/
structure Interactions where
  color_changed : Bool
  brush_size_changed : Bool
  clear_canvas : Bool
  drawing_mode : Bool
  shape_drawing_mode : Bool
  save_drawing : Bool
deriving DecidableEq, Repr

def initInteractions : Interactions :=
  { color_changed := false, brush_size_changed := false, clear_canvas := false,
    drawing_mode := false, shape_drawing_mode := false, save_drawing := false }

/-! `handle_interactions` (painter.py lines 266-352) is a sequence of six
blocks over the mutable state and the result dictionary; each block is one
function below, composed in source order. -/

/-- Toggle-button block (lines 284-301): on the first toggle button under
the pointer, flip the matching visibility flag or raise the one-shot
clear/save flag.  Gated on the index finger (`fingers_up[1]`). -/
def toggleStep (px py : Int) (f1 : Bool) : PainterState × Interactions → PainterState × Interactions
  | (st, inter) =>
    if f1 then
      match toggle_buttons.find? (fun b => b.is_over px py) with
      | some b =>
        if b.text = "Colors" then ({ st with hide_colors := !st.hide_colors }, inter)
        else if b.text = "Shapes" then ({ st with hide_shapes := !st.hide_shapes }, inter)
        else if b.text = "Pen" then ({ st with hide_pen_sizes := !st.hide_pen_sizes }, inter)
        else if b.text = "Clear" then (st, { inter with clear_canvas := true })
        else if b.text = "Save" then (st, { inter with save_drawing := true })
        else (st, inter)
      | none => (st, inter)
    else (st, inter)

/-- Color-selection block (lines 303-314): on the first visible swatch
under the pointer, set the color (Eraser: background color and brush 20;
otherwise the swatch color and brush 5) and report `color_changed`. -/
def colorStep (px py : Int) (f1 : Bool) : PainterState × Interactions → PainterState × Interactions
  | (st, inter) =>
    if !st.hide_colors && f1 then
      match colors_elems.find? (fun b => b.is_over px py) with
      | some b =>
        if b.text = "Eraser" then
          ({ st with current_color := canvas_background_color, current_brush_size := 20 },
           { inter with color_changed := true })
        else
          ({ st with current_color := b.color, current_brush_size := 5 },
           { inter with color_changed := true })
      | none => (st, inter)
    else (st, inter)

/-- Pen-size block (lines 316-322). -/
def penStep (px py : Int) (f1 : Bool) : PainterState × Interactions → PainterState × Interactions
  | (st, inter) =>
    if !st.hide_pen_sizes && f1 then
      match pen_sizes.find? (fun b => b.is_over px py) with
      | some b =>
        ({ st with current_brush_size := pen_text_to_int b.text },
         { inter with brush_size_changed := true })
      | none => (st, inter)
    else (st, inter)

/-- Shape-selection block (lines 324-330): select the shape and drop the
shape-drawing latch. -/
def shapeSelectStep (px py : Int) (f1 : Bool) : PainterState × Interactions → PainterState × Interactions
  | (st, inter) =>
    if !st.hide_shapes && f1 then
      match shapes_elems.find? (fun b => b.is_over px py) with
      | some b =>
        ({ st with current_shape := some b.text, shape_drawing_mode := false }, inter)
      | none => (st, inter)
    else (st, inter)

/-- Freehand drawing-mode block (lines 332-336): inside the board with
index up and thumb down. -/
def drawingFlagStep (px py : Int) (f0 f1 : Bool) : PainterState × Interactions → PainterState × Interactions
  | (st, inter) =>
    if canvas_elem.is_over px py && (f1 && !f0) then
      (st, { inter with drawing_mode := true })
    else (st, inter)

/-- Shape-drawing latch block (lines 338-351): with a shape selected and
the shapes group visible, a thumb-up frame inside the board latches the
anchor point and reports `shape_drawing_mode`; a thumb-down frame while
latched drops the latch and clears the selected shape. -/
def shapeDrawStep (px py : Int) (f0 : Bool) : PainterState × Interactions → PainterState × Interactions
  | (st, inter) =>
    if canvas_elem.is_over px py then
      if !st.hide_shapes && st.current_shape.isSome then
        if !st.shape_drawing_mode && f0 then
          ({ st with shape_start_point := some ⟨px, py⟩, shape_drawing_mode := true },
           { inter with shape_drawing_mode := true })
        else if st.shape_drawing_mode && !f0 then
          ({ st with shape_drawing_mode := false, current_shape := none }, inter)
        else (st, inter)
      else (st, inter)
    else (st, inter)

/-- `PainterUI.handle_interactions(x, y, fingers_up)` (painter.py lines
266-352).  The Python body reads only `fingers_up[0]` (thumb) and
`fingers_up[1]` (index); `main` only calls it with a full 5-entry vector
(and `detect_gesture` only ever returns `[]` or 5 entries), so `getD`
coincides with Python indexing on every actual call. -/
def handle_interactions (px py : Int) (fingers_up : List Bool) (st : PainterState) :
    PainterState × Interactions :=
  let f0 := fingers_up.getD 0 false
  let f1 := fingers_up.getD 1 false
  shapeDrawStep px py f0
    (drawingFlagStep px py f0 f1
      (shapeSelectStep px py f1
        (penStep px py f1
          (colorStep px py f1
            (toggleStep px py f1 (st, initInteractions))))))

/-! ## Drawing engine

The canvas is a 720×1280 raster in the source; the claims only concern
*whether and what* is drawn onto it, so it is modelled as the list of
drawing primitives applied since the last clear (the fresh white canvas is
`[]`, and each `cv2.line`/`cv2.circle`/... call appends one operation). -/

/-- One 2D drawing primitive call, as issued by `main.py` / `painter.py`. -/
inductive DrawOp where
  | line (p1 p2 : Pt) (color : Color) (size : Int)
  | circle (center : Pt) (radius : Int) (color : Color) (size : Int)
  | rectangle (p1 p2 : Pt) (color : Color) (size : Int)
  | polylines (pts : List Pt) (closed : Bool) (color : Color) (size : Int)
deriving DecidableEq, Repr

abbrev Canvas := List DrawOp

/-- `PainterUI.draw_shape(canvas, start_point, end_point)` (painter.py
lines 354-388).  `width = |x2 - x1|`, `height = |y2 - y1|`; the circle
radius is `int(min(width, height) / 2)` and the triangle apex x is
`(x1 + x2) // 2` (floor division, as in Python). -/
def draw_shape (st : PainterState) (canvas : Canvas) (start_point end_point : Pt) : Canvas :=
  let x1 := start_point.x
  let y1 := start_point.y
  let x2 := end_point.x
  let y2 := end_point.y
  let width := |x2 - x1|
  let height := |y2 - y1|
  if st.current_shape = some "Circle" then
    canvas ++ [DrawOp.circle start_point ((min width height).fdiv 2)
                st.current_color st.current_brush_size]
  else if st.current_shape = some "Rectangle" then
    canvas ++ [DrawOp.rectangle start_point end_point
                st.current_color st.current_brush_size]
  else if st.current_shape = some "Triangle" then
    canvas ++ [DrawOp.polylines [⟨x1, y2⟩, ⟨x2, y2⟩, ⟨(x1 + x2).fdiv 2, y1⟩] true
                st.current_color st.current_brush_size]
  else canvas

/-- The pointer-interaction section of one `main` loop iteration
(main.py lines 108-145), from `if pointing_finger and fingers_up:` to the
`previous_x, previous_y` update.  `cur` stands for the already-smoothed
cursor `(int(smooth_x), int(smooth_y))` of this frame (the smoother itself
is modelled separately below); `prev` is `(previous_x, previous_y)`.
In Python a detected pointer is a (truthy) tuple and `fingers_up` is
truthy iff non-empty, so the guard is `pointing_finger.isSome` and
`fingers_up ≠ []`.  The preview branch (lines 124-129) copies the canvas,
draws the shape on the copy, and **assigns the result back to `canvas`**
— under value semantics the persistent canvas becomes
`draw_shape st canvas start cur`. -/
def frameStep (pointing_finger : Option Pt) (fingers_up : List Bool)
    (st : PainterState) (canvas : Canvas) (prev cur : Pt) :
    PainterState × Canvas × Pt :=
  if pointing_finger.isSome && !fingers_up.isEmpty then
    let r := handle_interactions cur.x cur.y fingers_up st
    let canvas1 := if r.2.clear_canvas then [] else canvas
    let canvas2 :=
      if r.2.shape_drawing_mode && r.1.shape_start_point.isSome then
        draw_shape r.1 canvas1 (r.1.shape_start_point.getD ⟨0, 0⟩) cur
      else if r.2.drawing_mode && decide (prev ≠ ⟨0, 0⟩) then
        canvas1 ++ [DrawOp.line prev cur r.1.current_color r.1.current_brush_size]
      else canvas1
    (r.1, canvas2, cur)
  else
    (st, canvas, ⟨0, 0⟩)

/-! ## Hand tracker (`hand_tracker.py`)

`get_hand_landmarks` converts the external detector's output to pixel
points; the functions below take that landmark list directly.  The
relevant `HandLandmark` indices: THUMB_MCP = 1, THUMB_TIP = 4,
INDEX_PIP = 6, INDEX_TIP = 8, MIDDLE 10/12, RING 14/16, PINKY 18/20. -/

/-- `EnhancedHandTracker.get_pointing_finger` (hand_tracker.py lines
111-119): guard `len(landmarks) >= 8`, then return
`landmarks[HandLandmark.INDEX_TIP.value]`, i.e. `landmarks[8]`.
`Except.error ()` models the Python `IndexError` raised when the index-8
access is out of range (which the `>= 8` guard does not rule out). -/
def get_pointing_finger (landmarks : List Pt) : Except Unit (Option Pt) :=
  if landmarks.length ≥ 8 then
    match landmarks.get? 8 with
    | some p => Except.ok (some p)
    | none => Except.error ()
  else Except.ok none

/-- `EnhancedHandTracker.detect_gesture` (hand_tracker.py lines 79-109):
empty result for fewer than 21 landmarks; otherwise the 5 finger-up
booleans — thumb by `landmarks[4][0] < landmarks[1][0]`, the other four
fingers by `landmarks[tip][1] < landmarks[pip][1]` with (tip, pip) pairs
(8,6), (12,10), (16,14), (20,18).  All indices are below 21, so `getD`
coincides with Python indexing under the guard. -/
def detect_gesture (landmarks : List Pt) : List Bool :=
  if landmarks.length < 21 then []
  else
    let d : Pt := ⟨0, 0⟩
    [decide ((landmarks.getD 4 d).x < (landmarks.getD 1 d).x),
     decide ((landmarks.getD 8 d).y < (landmarks.getD 6 d).y),
     decide ((landmarks.getD 12 d).y < (landmarks.getD 10 d).y),
     decide ((landmarks.getD 16 d).y < (landmarks.getD 14 d).y),
     decide ((landmarks.getD 20 d).y < (landmarks.getD 18 d).y)]

/-! ## Mouth tracker (`mouth_tracker.py`)

`detect_mouth` returns the 4 mouth points in list order
[left corner (308), right corner (78), top center (0), bottom center (17)]
(or `[]` when no face is detected); `detect_mouth_open` is a function of
that list. -/

/-- `MouthTracker.detect_mouth_open` (mouth_tracker.py lines 62-78):
with at least 4 points, `mouth_height = |landmarks[2].y - landmarks[3].y|`,
`mouth_width = |landmarks[0].x - landmarks[1].x|`, and the result is
`mouth_height > mouth_width * 0.3`; otherwise `False`.  The literal `0.3`
is modelled as the exact rational 3/10. -/
def detect_mouth_open (mouth_landmarks : List Pt) : Bool :=
  if mouth_landmarks.length ≥ 4 then
    let d : Pt := ⟨0, 0⟩
    let mouth_height := |(mouth_landmarks.getD 2 d).y - (mouth_landmarks.getD 3 d).y|
    let mouth_width := |(mouth_landmarks.getD 0 d).x - (mouth_landmarks.getD 1 d).x|
    decide ((mouth_height : ℚ) > (mouth_width : ℚ) * (3 / 10))
  else false

/-! ## Mouth-save trigger state machine (`main.py` lines 38-41, 78-106)

Per frame: decrement `save_cooldown` if positive; increment
`mouth_open_count` on an open frame, reset it on a closed frame; fire a
save (and reset counter, start cooldown) when
`mouth_open_count >= MOUTH_OPEN_THRESHOLD and save_cooldown == 0`. -/

def MOUTH_OPEN_THRESHOLD : Nat := 10

def SAVE_COOLDOWN_FRAMES : Nat := 60

structure SaveState where
  mouth_open_count : Nat
  save_cooldown : Nat
deriving DecidableEq, Repr

/-- Initial save-trigger state (main.py lines 38, 40). -/
def initSaveState : SaveState := { mouth_open_count := 0, save_cooldown := 0 }

/-- One frame of the save-trigger logic; the returned boolean is whether a
save event fired this frame. -/
def saveStep (s : SaveState) (is_mouth_open : Bool) : SaveState × Bool :=
  let cooldown := if s.save_cooldown > 0 then s.save_cooldown - 1 else s.save_cooldown
  let count := if is_mouth_open then s.mouth_open_count + 1 else 0
  if count ≥ MOUTH_OPEN_THRESHOLD && cooldown == 0 then
    ({ mouth_open_count := 0, save_cooldown := SAVE_COOLDOWN_FRAMES }, true)
  else
    ({ mouth_open_count := count, save_cooldown := cooldown }, false)

/-- Run the save-trigger machine over a list of per-frame open/closed
observations; returns the final state and the number of save events fired. -/
def runSave (s : SaveState) : List Bool → SaveState × Nat
  | [] => (s, 0)
  | b :: rest =>
    let r := saveStep s b
    let rr := runSave r.1 rest
    (rr.1, (if r.2 then 1 else 0) + rr.2)

/-! ## Pointer smoother (`main.py` lines 44-45, 108-114) -/

/-- The smoothing factor `alpha = 0.4` (main.py line 45), exactly 2/5. -/
def alpha : ℚ := 2 / 5

/-- One exponential-smoothing update (main.py lines 113-114), applied
independently to each coordinate:
`smooth = alpha * raw + (1 - alpha) * smooth`. -/
def smoothStep (a raw prevSmooth : ℚ) : ℚ :=
  a * raw + (1 - a) * prevSmooth

/-- The smoothed coordinate after `n` frames of the constant raw input
`raw`, starting from the initial state 0 (`smooth_x, smooth_y = 0, 0`,
main.py line 44). -/
def smoothIter (a raw : ℚ) : Nat → ℚ
  | 0 => 0
  | n + 1 => smoothStep a raw (smoothIter a raw n)

/-! ## Claims C3 and C10: `get_pointing_finger` -/

/-- C3 (counterexample): a 9-point landmark list has fewer than 21 points,
yet `get_pointing_finger` returns a pointer for it (the code's guard is
`len >= 8`, not `>= 21`), contradicting the claim that no pointer is
produced when fewer than 21 landmarks are present. -/
theorem c3_counterexample :
    (List.replicate 9 (⟨7, 5⟩ : Pt)).length < 21 ∧
    get_pointing_finger (List.replicate 9 (⟨7, 5⟩ : Pt)) = Except.ok (some ⟨7, 5⟩) ∧
    get_pointing_finger (List.replicate 9 (⟨7, 5⟩ : Pt)) ≠ Except.ok none := by
  refine ⟨by decide, rfl, ?_⟩
  simp [get_pointing_finger]

/-- C3 (amended): `get_pointing_finger` returns the index-fingertip entry
(position 8) whenever at least 9 landmark points are present, and produces
no pointer when fewer than 8 are present.  (With exactly 8 points the
guard passes but the access is out of range — see C10.) -/
theorem c3_pointer_threshold (landmarks : List Pt) :
    (9 ≤ landmarks.length →
      get_pointing_finger landmarks = Except.ok (landmarks.get? 8) ∧
      (landmarks.get? 8).isSome = true) ∧
    (landmarks.length < 8 → get_pointing_finger landmarks = Except.ok none) := by
  constructor
  · intro h9
    cases h8 : landmarks.get? 8 with
    | none =>
      exact absurd (List.get?_eq_none.mp h8) (by omega)
    | some p =>
      refine ⟨?_, by simp⟩
      rw [List.get?_eq_getElem?] at h8
      simp [get_pointing_finger, h8, (show 8 ≤ landmarks.length by omega)]
  · intro hlt
    simp [get_pointing_finger, (show ¬ 8 ≤ landmarks.length by omega)]

/-- C3 witness: the amended theorem evaluated at a 9-point list (first
conjunct) and a 3-point list (second conjunct). -/
theorem c3_pointer_threshold_witness :
    (9 ≤ (List.replicate 9 (⟨7, 5⟩ : Pt)).length ∧
      get_pointing_finger (List.replicate 9 (⟨7, 5⟩ : Pt)) =
        Except.ok ((List.replicate 9 (⟨7, 5⟩ : Pt)).get? 8)) ∧
    ((List.replicate 3 (⟨7, 5⟩ : Pt)).length < 8 ∧
      get_pointing_finger (List.replicate 3 (⟨7, 5⟩ : Pt)) = Except.ok none) :=
  ⟨⟨by decide, ((c3_pointer_threshold (List.replicate 9 ⟨7, 5⟩)).1 (by decide)).1⟩,
   ⟨by decide, (c3_pointer_threshold (List.replicate 3 ⟨7, 5⟩)).2 (by decide)⟩⟩

/-- C10: the claim says every list accepted by the `len >= 8` guard makes
the index-8 access safe; the code contradicts it — a list of exactly 8
points passes the guard and the access `landmarks[8]` is out of range
(Python `IndexError`, modelled as `Except.error`). -/
theorem c10_guard_off_by_one :
    8 ≤ (List.replicate 8 (⟨0, 0⟩ : Pt)).length ∧
    get_pointing_finger (List.replicate 8 (⟨0, 0⟩ : Pt)) = Except.error () :=
  ⟨by decide, rfl⟩

/-! ## Claim C5: `detect_gesture` -/

/-- C5: `detect_gesture` returns the empty result for fewer than 21
landmarks; with 21 landmarks it returns the 5 finger flags in order
(thumb, index, middle, ring, pinky): thumb extended iff the thumb-tip
x-coordinate (landmark 4) is less than the thumb-base x-coordinate
(landmark 1), and each other finger extended iff its tip y-coordinate
(landmarks 8/12/16/20) is strictly less than its second-joint
y-coordinate (landmarks 6/10/14/18). -/
theorem c5_detect_gesture (landmarks : List Pt) :
    (landmarks.length < 21 → detect_gesture landmarks = []) ∧
    (landmarks.length = 21 →
      (detect_gesture landmarks).length = 5 ∧
      ((detect_gesture landmarks).getD 0 false = true ↔
        (landmarks.getD 4 ⟨0, 0⟩).x < (landmarks.getD 1 ⟨0, 0⟩).x) ∧
      ((detect_gesture landmarks).getD 1 false = true ↔
        (landmarks.getD 8 ⟨0, 0⟩).y < (landmarks.getD 6 ⟨0, 0⟩).y) ∧
      ((detect_gesture landmarks).getD 2 false = true ↔
        (landmarks.getD 12 ⟨0, 0⟩).y < (landmarks.getD 10 ⟨0, 0⟩).y) ∧
      ((detect_gesture landmarks).getD 3 false = true ↔
        (landmarks.getD 16 ⟨0, 0⟩).y < (landmarks.getD 14 ⟨0, 0⟩).y) ∧
      ((detect_gesture landmarks).getD 4 false = true ↔
        (landmarks.getD 20 ⟨0, 0⟩).y < (landmarks.getD 18 ⟨0, 0⟩).y)) := by
  constructor
  · intro h
    simp [detect_gesture, h]
  · intro h
    simp [detect_gesture, h]

/-- C5 witness: the theorem applied to a concrete 21-point list (thumb tip
right of thumb base, every fingertip above its second joint) and to the
empty list. -/
theorem c5_detect_gesture_witness :
    (([] : List Pt).length < 21 ∧ detect_gesture [] = []) ∧
    (((List.range 21).map fun i => (⟨Int.ofNat i, 100 - Int.ofNat i⟩ : Pt)).length = 21 ∧
      (detect_gesture ((List.range 21).map fun i => (⟨Int.ofNat i, 100 - Int.ofNat i⟩ : Pt))).getD 1 false = true) := by
  refine ⟨⟨by decide, (c5_detect_gesture []).1 (by decide)⟩, ⟨by decide, ?_⟩⟩
  exact ((c5_detect_gesture _).2 (by decide)).2.2.1.mpr (by decide)

/-! ## Claim C8: `detect_mouth_open` -/

/-- C8: with the 4 mouth landmark points `detect_mouth_open` is true iff
the vertical gap `|top.y − bottom.y|` (list positions 2 and 3) strictly
exceeds 0.3 times the horizontal gap `|left.x − right.x|` (positions 0
and 1); with fewer than 4 points it fails closed (returns false). -/
theorem c8_mouth_open (mouth_landmarks : List Pt) :
    (mouth_landmarks.length < 4 → detect_mouth_open mouth_landmarks = false) ∧
    (4 ≤ mouth_landmarks.length →
      (detect_mouth_open mouth_landmarks = true ↔
        ((|(mouth_landmarks.getD 2 ⟨0, 0⟩).y - (mouth_landmarks.getD 3 ⟨0, 0⟩).y| : Int) : ℚ) >
          (3 / 10) * ((|(mouth_landmarks.getD 0 ⟨0, 0⟩).x - (mouth_landmarks.getD 1 ⟨0, 0⟩).x| : Int) : ℚ))) := by
  constructor
  · intro h
    simp [detect_mouth_open, (show ¬ 4 ≤ mouth_landmarks.length by omega)]
  · intro h
    simp only [detect_mouth_open, if_pos h, decide_eq_true_iff]
    rw [mul_comm]

/-- C8 witness: the theorem applied to a concrete open mouth (vertical gap
4, horizontal gap 10) and to the empty landmark list. -/
theorem c8_mouth_open_witness :
    (([] : List Pt).length < 4 ∧ detect_mouth_open [] = false) ∧
    (4 ≤ ([⟨0, 0⟩, ⟨10, 0⟩, ⟨5, 0⟩, ⟨5, 4⟩] : List Pt).length ∧
      detect_mouth_open [⟨0, 0⟩, ⟨10, 0⟩, ⟨5, 0⟩, ⟨5, 4⟩] = true) := by
  refine ⟨⟨by decide, (c8_mouth_open []).1 (by decide)⟩, ⟨by decide, ?_⟩⟩
  exact ((c8_mouth_open _).2 (by decide)).mpr (by norm_num)

/-! ## Claim C4: save-trigger state machine -/

/-- While more frames remain than the pending cooldown allows for, no save
event can fire: each frame first decrements a positive cooldown, and the
fire condition requires the (decremented) cooldown to be zero. -/
theorem runSave_no_fire_of_cooldown (inputs : List Bool) :
    ∀ s : SaveState, inputs.length < s.save_cooldown → (runSave s inputs).2 = 0 := by
  induction inputs with
  | nil => intro s _; rfl
  | cons b rest ih =>
    intro s hlen
    simp only [List.length_cons] at hlen
    have hpos : 0 < s.save_cooldown := by omega
    have hstep : saveStep s b =
        ({ mouth_open_count := if b then s.mouth_open_count + 1 else 0,
           save_cooldown := s.save_cooldown - 1 }, false) := by
      simp only [saveStep, if_pos hpos]
      rw [if_neg]
      simp only [Bool.and_eq_true, beq_iff_eq, decide_eq_true_iff]
      omega
    simp only [runSave, hstep]
    rw [ih _ (by simp only []; omega)]
    simp

/-- C4: from the initial state, 9 consecutive open frames followed by one
closed frame fire no save event; 10 consecutive open frames fire exactly
one save event and leave the machine in the post-fire state (counter 0,
cooldown 60); and from the post-fire state no save event fires within the
next 59 frames, whatever the mouth does. -/
theorem c4_save_debounce :
    (runSave initSaveState (List.replicate 9 true ++ [false])).2 = 0 ∧
    (runSave initSaveState (List.replicate 10 true)).2 = 1 ∧
    (runSave initSaveState (List.replicate 10 true)).1 =
      { mouth_open_count := 0, save_cooldown := 60 } ∧
    (∀ inputs : List Bool, inputs.length < 60 →
      (runSave { mouth_open_count := 0, save_cooldown := 60 } inputs).2 = 0) := by
  refine ⟨by decide, by decide, by decide, ?_⟩
  intro inputs hlen
  exact runSave_no_fire_of_cooldown inputs _ hlen

/-- C4 witness: the no-refire conjunct evaluated on 59 consecutive open
frames immediately after a fire. -/
theorem c4_save_debounce_witness :
    (List.replicate 59 true).length < 60 ∧
    (runSave { mouth_open_count := 0, save_cooldown := 60 } (List.replicate 59 true)).2 = 0 :=
  ⟨by decide, c4_save_debounce.2.2.2 (List.replicate 59 true) (by decide)⟩

/-! ## Claim C7: pointer smoother -/

/-- Closed form of the residual under the constant input `raw`:
after `n` frames the remaining gap is `raw * (3/5)^n`
(here `1 - alpha = 3/5`). -/
theorem smoothIter_residual (raw : ℚ) : ∀ n, raw - smoothIter alpha raw n = raw * (3 / 5) ^ n := by
  intro n
  induction n with
  | zero => simp [smoothIter]
  | succ n ih =>
    rw [smoothIter]
    set s := smoothIter alpha raw n with hs
    simp only [smoothStep, alpha]
    linear_combination (3 / 5 : ℚ) * ih

/-- C7: the smoother applies `smoothed = alpha * raw + (1 - alpha) *
smoothed_prev` with `alpha = 2/5` from the initial state 0 (each
coordinate independently); for a constant nonnegative raw value the output
is monotone nondecreasing and never exceeds the raw value; and after 50
frames of raw 500 (x) and raw 300 (y) the output is within 1 unit of the
raw value. -/
theorem c7_smoother (raw : ℚ) (hraw : 0 ≤ raw) :
    (∀ n, smoothIter alpha raw (n + 1) =
      alpha * raw + (1 - alpha) * smoothIter alpha raw n) ∧
    (∀ n, smoothIter alpha raw n ≤ smoothIter alpha raw (n + 1) ∧
      smoothIter alpha raw n ≤ raw) ∧
    |500 - smoothIter alpha 500 50| < 1 ∧ |300 - smoothIter alpha 300 50| < 1 := by
  have hpow : ∀ n : Nat, (0 : ℚ) ≤ (3 / 5) ^ n := fun n => by positivity
  have hle : ∀ r : ℚ, 0 ≤ r → ∀ n, smoothIter alpha r n ≤ r := by
    intro r hr n
    have := smoothIter_residual r n
    nlinarith [hpow n, mul_nonneg hr (hpow n)]
  refine ⟨fun n => rfl, fun n => ⟨?_, hle raw hraw n⟩, ?_, ?_⟩
  · have h1 := smoothIter_residual raw n
    have h2 := smoothIter_residual raw (n + 1)
    have : smoothIter alpha raw (n + 1) - smoothIter alpha raw n =
        (2 / 5) * (raw * (3 / 5) ^ n) := by
      rw [pow_succ] at h2
      linarith
    nlinarith [mul_nonneg hraw (hpow n)]
  · rw [abs_of_nonneg (by linarith [hle 500 (by norm_num) 50])]
    rw [smoothIter_residual 500 50]
    rw [show ((500 : ℚ) * (3 / 5) ^ 50 = 500 * 3 ^ 50 / 5 ^ 50) by ring]
    rw [div_lt_one (by positivity)]
    norm_num
  · rw [abs_of_nonneg (by linarith [hle 300 (by norm_num) 50])]
    rw [smoothIter_residual 300 50]
    rw [show ((300 : ℚ) * (3 / 5) ^ 50 = 300 * 3 ^ 50 / 5 ^ 50) by ring]
    rw [div_lt_one (by positivity)]
    norm_num

/-- C7 witness: the theorem at the constant raw input 500 — the update
rule at frame 1, one monotonicity step, and the 50-frame bound. -/
theorem c7_smoother_witness :
    (0 : ℚ) ≤ 500 ∧
    smoothIter alpha 500 1 = alpha * 500 + (1 - alpha) * smoothIter alpha 500 0 ∧
    smoothIter alpha 500 0 ≤ 500 ∧
    |500 - smoothIter alpha 500 50| < 1 :=
  ⟨by norm_num, (c7_smoother 500 (by norm_num)).1 0,
   ((c7_smoother 500 (by norm_num)).2.1 0).2, (c7_smoother 500 (by norm_num)).2.2.1⟩

/-! ## Claim C1: shape preview vs. commit -/

/-- C1: the claim (and the code's own comment "Create a copy of the
canvas to draw preview") says shape previews never mutate the persistent
canvas and the shape reaches it only through a commit on shape-mode exit.
The code does the opposite: on the latch frame of a shape gesture
(`interactions['shape_drawing_mode']` is true exactly once, when the
thumb-up anchor is latched) `main` executes
`canvas = painter_ui.draw_shape(preview_canvas, ...)`, assigning the
drawn copy back to the persistent canvas — here a degenerate rectangle at
the anchor is committed — while the later exit frame (thumb down) draws
nothing, so no commit path exists on exit.  Evaluated below on a concrete
gesture: state with shapes visible and "Rectangle" selected, anchor frame
at (600,400) with only the thumb up, then exit frame with all fingers
down. -/
theorem c1_preview_commits_to_canvas :
    let st0 : PainterState :=
      { initPainterState with hide_shapes := false, current_shape := some "Rectangle" }
    let r1 := frameStep (some ⟨600, 400⟩) [true, false, false, false, false]
      st0 ([] : Canvas) ⟨0, 0⟩ ⟨600, 400⟩
    r1.2.1 = [DrawOp.rectangle ⟨600, 400⟩ ⟨600, 400⟩ (50, 120, 220) 5] ∧
    r1.2.1 ≠ ([] : Canvas) ∧
    (frameStep (some ⟨601, 401⟩) [false, false, false, false, false]
      r1.1 r1.2.1 r1.2.2 ⟨601, 401⟩).2.1 = r1.2.1 := by
  refine ⟨by decide, by decide, by decide⟩

/-! ## Claim C6: stroke discontinuity guard -/

/-- C6: in a frame whose interaction result raises neither the clear flag
nor an effective shape preview, a freehand append from the neutral (0,0)
sentinel never mutates the canvas, whatever the destination `cur` is (the
`(previous_x, previous_y) != (0, 0)` guard blocks the `cv2.line` call);
and on a frame with no raw pointer the previous-draw-point state is reset
to (0,0), so the next stroke segment cannot connect across a detection
gap. -/
theorem c6_stroke_discontinuity_guard (pointing_finger : Option Pt)
    (fingers_up : List Bool) (st : PainterState) (canvas : Canvas) (prev cur : Pt)
    (hclear : (handle_interactions cur.x cur.y fingers_up st).2.clear_canvas = false)
    (hshape : ((handle_interactions cur.x cur.y fingers_up st).2.shape_drawing_mode &&
      (handle_interactions cur.x cur.y fingers_up st).1.shape_start_point.isSome) = false) :
    (frameStep pointing_finger fingers_up st canvas ⟨0, 0⟩ cur).2.1 = canvas ∧
    (frameStep none fingers_up st canvas prev cur).2.2 = ⟨0, 0⟩ := by
  constructor
  · by_cases hg : (pointing_finger.isSome && !fingers_up.isEmpty) = true
    · simp only [frameStep, hg, if_true, hclear, hshape, if_false,
        Bool.false_eq_true, decide_not]
      simp
    · simp only [frameStep]
      rw [if_neg (by simpa using hg)]
  · simp [frameStep]

/-- C6 witness: a frame at cursor (600,400) with the index finger up and
the default painter state (no toggle under the cursor, shapes hidden):
both computed hypotheses hold and the canvas is unchanged. -/
theorem c6_stroke_discontinuity_guard_witness :
    (handle_interactions 600 400 [false, true, false, false, false] initPainterState).2.clear_canvas = false ∧
    ((handle_interactions 600 400 [false, true, false, false, false] initPainterState).2.shape_drawing_mode &&
      (handle_interactions 600 400 [false, true, false, false, false] initPainterState).1.shape_start_point.isSome) = false ∧
    (frameStep (some ⟨600, 400⟩) [false, true, false, false, false] initPainterState
      [DrawOp.line ⟨1, 1⟩ ⟨2, 2⟩ (50, 120, 220) 5] ⟨0, 0⟩ ⟨600, 400⟩).2.1 =
      [DrawOp.line ⟨1, 1⟩ ⟨2, 2⟩ (50, 120, 220) 5] ∧
    (frameStep none [] initPainterState [] ⟨9, 9⟩ ⟨600, 400⟩).2.2 = (⟨0, 0⟩ : Pt) :=
  ⟨by decide, by decide,
   (c6_stroke_discontinuity_guard (some ⟨600, 400⟩) [false, true, false, false, false]
      initPainterState [DrawOp.line ⟨1, 1⟩ ⟨2, 2⟩ (50, 120, 220) 5] ⟨9, 9⟩ ⟨600, 400⟩
      (by decide) (by decide)).1,
   (c6_stroke_discontinuity_guard none [] initPainterState []
      ⟨9, 9⟩ ⟨600, 400⟩ (by decide) (by decide)).2⟩

/-! ## Geometry and block lemmas for `handle_interactions` -/

/-- Every toggle button occupies the row `y ∈ (20, 70)`. -/
theorem mem_toggle_buttons_geom : ∀ b ∈ toggle_buttons, b.y = 20 ∧ b.h = 50 := by decide

/-- Every color swatch (Eraser included) occupies the row `y ∈ (80, 130)`. -/
theorem mem_colors_elems_geom : ∀ b ∈ colors_elems, b.y = 80 ∧ b.h = 50 := by decide

/-- A point over an element lies strictly inside its vertical extent. -/
theorem is_over_y_bounds (b : UIElement) (px py : Int) (h : b.is_over px py = true) :
    b.y < py ∧ py < b.y + b.h := by
  simp only [UIElement.is_over, Bool.and_eq_true, decide_eq_true_iff] at h
  exact h.2

/-- The canvas board starts at `y = 130`, so no point above that row is
over it. -/
theorem canvas_elem_not_over (px py : Int) (h : py < 130) :
    canvas_elem.is_over px py = false := by
  simp only [UIElement.is_over, canvas_elem, Bool.and_eq_false_iff]
  right
  simp only [decide_eq_false_iff_not]
  omega

/-- No toggle button is under a pointer below the `y = 70` row. -/
theorem toggle_find_none (px py : Int) (h : 80 < py) :
    toggle_buttons.find? (fun b => b.is_over px py) = none := by
  rw [List.find?_eq_none]
  intro b hb
  have hg := mem_toggle_buttons_geom b hb
  simp only [UIElement.is_over, Bool.and_eq_true, decide_eq_true_iff, not_and]
  intro _ hy
  omega

theorem toggleStep_of_none (px py : Int) (f1 : Bool) (p : PainterState × Interactions)
    (h : toggle_buttons.find? (fun b => b.is_over px py) = none) :
    toggleStep px py f1 p = p := by
  obtain ⟨s, i⟩ := p
  simp [toggleStep, h]

theorem toggleStep_idle (px py : Int) (p : PainterState × Interactions) :
    toggleStep px py false p = p := by
  obtain ⟨s, i⟩ := p
  simp [toggleStep]

theorem colorStep_idle (px py : Int) (p : PainterState × Interactions) :
    colorStep px py false p = p := by
  obtain ⟨s, i⟩ := p
  simp [colorStep]

theorem penStep_idle (px py : Int) (p : PainterState × Interactions) :
    penStep px py false p = p := by
  obtain ⟨s, i⟩ := p
  simp [penStep]

theorem shapeSelectStep_idle (px py : Int) (p : PainterState × Interactions) :
    shapeSelectStep px py false p = p := by
  obtain ⟨s, i⟩ := p
  simp [shapeSelectStep]

theorem drawingFlagStep_idle (px py : Int) (f0 : Bool) (p : PainterState × Interactions) :
    drawingFlagStep px py f0 false p = p := by
  obtain ⟨s, i⟩ := p
  simp [drawingFlagStep]

/-- A visible-swatch hit sets `color_changed` whichever swatch is found
(Eraser or a palette color). -/
theorem colorStep_hit (px py : Int) (st : PainterState) (i : Interactions)
    (hvis : st.hide_colors = false)
    (hfind : (colors_elems.find? (fun b => b.is_over px py)).isSome = true) :
    (colorStep px py true (st, i)).2 = { i with color_changed := true } := by
  cases hf : colors_elems.find? (fun b => b.is_over px py) with
  | none => rw [hf] at hfind; simp at hfind
  | some b2 =>
    simp only [colorStep, hvis, Bool.not_false, Bool.true_and, if_true, hf]
    split <;> rfl

theorem penStep_snd_color (px py : Int) (f1 : Bool) (p : PainterState × Interactions) :
    (penStep px py f1 p).2.color_changed = p.2.color_changed := by
  obtain ⟨s, i⟩ := p
  cases hf : pen_sizes.find? (fun b => b.is_over px py) with
  | none => simp [penStep, hf]
  | some b2 => simp only [penStep, hf]; split <;> rfl

theorem penStep_snd_draw (px py : Int) (f1 : Bool) (p : PainterState × Interactions) :
    (penStep px py f1 p).2.drawing_mode = p.2.drawing_mode := by
  obtain ⟨s, i⟩ := p
  cases hf : pen_sizes.find? (fun b => b.is_over px py) with
  | none => simp [penStep, hf]
  | some b2 => simp only [penStep, hf]; split <;> rfl

theorem shapeSelectStep_snd (px py : Int) (f1 : Bool) (p : PainterState × Interactions) :
    (shapeSelectStep px py f1 p).2 = p.2 := by
  obtain ⟨s, i⟩ := p
  cases hf : shapes_elems.find? (fun b => b.is_over px py) with
  | none => simp [shapeSelectStep, hf]
  | some b2 => simp only [shapeSelectStep, hf]; split <;> rfl

theorem drawingFlagStep_not_over (px py : Int) (f0 f1 : Bool)
    (p : PainterState × Interactions) (h : canvas_elem.is_over px py = false) :
    drawingFlagStep px py f0 f1 p = p := by
  obtain ⟨s, i⟩ := p
  simp [drawingFlagStep, h]

theorem shapeDrawStep_not_over (px py : Int) (f0 : Bool)
    (p : PainterState × Interactions) (h : canvas_elem.is_over px py = false) :
    shapeDrawStep px py f0 p = p := by
  obtain ⟨s, i⟩ := p
  simp [shapeDrawStep, h]

/-- The shape-latch block only touches `current_shape`,
`shape_start_point`, `shape_drawing_mode` and the `shape_drawing_mode`
flag; every other tracked field passes through unchanged. -/
theorem shapeDrawStep_preserves (px py : Int) (f0 : Bool) (s : PainterState) (i : Interactions) :
    (shapeDrawStep px py f0 (s, i)).1.current_color = s.current_color ∧
    (shapeDrawStep px py f0 (s, i)).1.current_brush_size = s.current_brush_size ∧
    (shapeDrawStep px py f0 (s, i)).1.hide_colors = s.hide_colors ∧
    (shapeDrawStep px py f0 (s, i)).1.hide_pen_sizes = s.hide_pen_sizes ∧
    (shapeDrawStep px py f0 (s, i)).1.hide_shapes = s.hide_shapes ∧
    (shapeDrawStep px py f0 (s, i)).2.color_changed = i.color_changed ∧
    (shapeDrawStep px py f0 (s, i)).2.brush_size_changed = i.brush_size_changed ∧
    (shapeDrawStep px py f0 (s, i)).2.clear_canvas = i.clear_canvas ∧
    (shapeDrawStep px py f0 (s, i)).2.save_drawing = i.save_drawing ∧
    (shapeDrawStep px py f0 (s, i)).2.drawing_mode = i.drawing_mode := by
  simp only [shapeDrawStep]
  split <;> [skip; simp]
  split <;> [skip; simp]
  split
  · simp
  · split <;> simp

/-! ## Claim C2: color-swatch hit never co-reports a canvas draw -/

/-- C2: the color swatches and the canvas region are in fact disjoint
(swatches span `y ∈ (80, 130)`, the canvas `y ∈ (130, 1910)`, both
strict), so the claim's "inside both" precondition never occurs; the
statement proved here is the stronger unconditional one — any pointer
inside a visible color swatch with the index finger extended yields
`color_changed`, is not over the canvas region at all, and is never
simultaneously reported as a freehand `drawing_mode` interaction. -/
theorem c2_swatch_hit_never_draws (px py : Int) (fingers_up : List Bool) (st : PainterState)
    (hvis : st.hide_colors = false)
    (hidx : fingers_up.getD 1 false = true)
    (b : UIElement) (hb : b ∈ colors_elems) (hover : b.is_over px py = true) :
    (handle_interactions px py fingers_up st).2.color_changed = true ∧
    (handle_interactions px py fingers_up st).2.drawing_mode = false ∧
    canvas_elem.is_over px py = false := by
  have hy : 80 < py ∧ py < 130 := by
    have hg := mem_colors_elems_geom b hb
    have hob := is_over_y_bounds b px py hover
    omega
  have hcanvas : canvas_elem.is_over px py = false := canvas_elem_not_over px py hy.2
  have htog : toggle_buttons.find? (fun b => b.is_over px py) = none :=
    toggle_find_none px py hy.1
  have hfind : (colors_elems.find? (fun b => b.is_over px py)).isSome = true :=
    List.find?_isSome.mpr ⟨b, hb, hover⟩
  refine ⟨?_, ?_, hcanvas⟩
  · simp only [handle_interactions, hidx,
      toggleStep_of_none px py true (st, initInteractions) htog,
      shapeDrawStep_not_over px py _ _ hcanvas,
      drawingFlagStep_not_over px py _ _ _ hcanvas,
      shapeSelectStep_snd, penStep_snd_color, penStep_snd_draw,
      colorStep_hit px py st initInteractions hvis hfind]
  · simp only [handle_interactions, hidx,
      toggleStep_of_none px py true (st, initInteractions) htog,
      shapeDrawStep_not_over px py _ _ hcanvas,
      drawingFlagStep_not_over px py _ _ _ hcanvas,
      shapeSelectStep_snd, penStep_snd_color, penStep_snd_draw,
      colorStep_hit px py st initInteractions hvis hfind]
    rfl

/-- C2 witness: pointer (60, 100) lies inside the first palette swatch;
with colors visible and the index finger up the frame resolves to
`color_changed` and no `drawing_mode`. -/
theorem c2_swatch_hit_never_draws_witness :
    initPainterState.hide_colors = true ∧
    ({ initPainterState with hide_colors := false } : PainterState).hide_colors = false ∧
    ([false, true, false, false, false] : List Bool).getD 1 false = true ∧
    ({ x := 50, y := 80, w := 80, h := 50, color := (50, 120, 220), text := "" } : UIElement)
      ∈ colors_elems ∧
    ({ x := 50, y := 80, w := 80, h := 50, color := (50, 120, 220), text := "" } : UIElement).is_over 60 100 = true ∧
    (handle_interactions 60 100 [false, true, false, false, false]
      { initPainterState with hide_colors := false }).2.color_changed = true ∧
    (handle_interactions 60 100 [false, true, false, false, false]
      { initPainterState with hide_colors := false }).2.drawing_mode = false := by
  refine ⟨by decide, by decide, by decide, by decide, by decide, ?_, ?_⟩
  · exact (c2_swatch_hit_never_draws 60 100 [false, true, false, false, false]
      { initPainterState with hide_colors := false } (by decide) (by decide)
      { x := 50, y := 80, w := 80, h := 50, color := (50, 120, 220), text := "" }
      (by decide) (by decide)).1
  · exact (c2_swatch_hit_never_draws 60 100 [false, true, false, false, false]
      { initPainterState with hide_colors := false } (by decide) (by decide)
      { x := 50, y := 80, w := 80, h := 50, color := (50, 120, 220), text := "" }
      (by decide) (by decide)).2.1

/-! ## Claim C9: index finger down makes the frame inert -/

/-- C9: with any 5-entry finger vector whose index entry is false,
`handle_interactions` leaves `current_color`, `current_brush_size`,
`hide_colors`, `hide_pen_sizes` and `hide_shapes` unchanged and reports
none of color change, brush-size change, clear, save, or freehand
drawing; only the thumb-gated shape latch block can still change state. -/
theorem c9_index_down_inert (px py : Int) (fingers_up : List Bool) (st : PainterState)
    (_hlen : fingers_up.length = 5)
    (hidx : fingers_up.getD 1 false = false) :
    (handle_interactions px py fingers_up st).1.current_color = st.current_color ∧
    (handle_interactions px py fingers_up st).1.current_brush_size = st.current_brush_size ∧
    (handle_interactions px py fingers_up st).1.hide_colors = st.hide_colors ∧
    (handle_interactions px py fingers_up st).1.hide_pen_sizes = st.hide_pen_sizes ∧
    (handle_interactions px py fingers_up st).1.hide_shapes = st.hide_shapes ∧
    (handle_interactions px py fingers_up st).2.color_changed = false ∧
    (handle_interactions px py fingers_up st).2.brush_size_changed = false ∧
    (handle_interactions px py fingers_up st).2.clear_canvas = false ∧
    (handle_interactions px py fingers_up st).2.save_drawing = false ∧
    (handle_interactions px py fingers_up st).2.drawing_mode = false := by
  simp only [handle_interactions, hidx, toggleStep_idle, colorStep_idle,
    penStep_idle, shapeSelectStep_idle, drawingFlagStep_idle]
  exact shapeDrawStep_preserves px py (fingers_up.getD 0 false) st initInteractions

/-- C9 witness: a thumb-up, index-down frame inside the canvas region,
with all groups visible and a shape selected (the most state-bearing
configuration): every protected field and flag is untouched. -/
theorem c9_index_down_inert_witness :
    ([true, false, true, true, true] : List Bool).length = 5 ∧
    ([true, false, true, true, true] : List Bool).getD 1 false = false ∧
    (handle_interactions 600 400 [true, false, true, true, true]
      { current_color := (230, 130, 80), current_brush_size := 15,
        hide_colors := false, hide_pen_sizes := false, hide_shapes := false,
        current_shape := some "Circle", shape_start_point := none,
        shape_drawing_mode := false }).2.color_changed = false ∧
    (handle_interactions 600 400 [true, false, true, true, true]
      { current_color := (230, 130, 80), current_brush_size := 15,
        hide_colors := false, hide_pen_sizes := false, hide_shapes := false,
        current_shape := some "Circle", shape_start_point := none,
        shape_drawing_mode := false }).1.current_color = (230, 130, 80) := by
  refine ⟨by decide, by decide, ?_, ?_⟩
  · exact (c9_index_down_inert 600 400 [true, false, true, true, true] _
      (by decide) (by decide)).2.2.2.2.2.1
  · exact (c9_index_down_inert 600 400 [true, false, true, true, true]
      { current_color := (230, 130, 80), current_brush_size := 15,
        hide_colors := false, hide_pen_sizes := false, hide_shapes := false,
        current_shape := some "Circle", shape_start_point := none,
        shape_drawing_mode := false } (by decide) (by decide)).1

end AirDraw
